import Mathlib

set_option linter.unusedVariables false

/-!
Verification development for the cognitive-mirage architecture.

This file gives a shallow embedding of the two pipelines of the repository:

* the Realtime Selector (`realtimeprocessor.ts`): keyword scoring of eight
  fixed domain experts, canned-paragraph insight generation, confidence
  heuristics and intent-routed synthesis of a final answer string;
* the Perspective Engine (`krangcorevariant.ts`, class `KrangCore`): a
  fixed list of fifteen perspectives, a mental-context stack, recursive
  refinement with an insight network, synthesis and performance metrics.

Modelling conventions:

* JS numbers are modelled as `ℚ`.  Where the source guards a division, the
  model divides in `ℚ`; where the source can divide by zero (which in JS
  produces the non-finite values `Infinity`/`NaN`), the model uses
  `Option ℚ` with `none` standing for a non-finite result (see `jsDiv`).
* `Math.random()` is modelled as an explicit stream `g : ℕ → ℚ` of draws
  together with a cursor threaded through the engine state; each call site
  that draws randomness in the source consumes one stream element.
* `new Date().toISOString()` timestamps are modelled as values of an
  abstract monotone tick counter; no claim inspects their contents.
* `crypto.createHash(...)` is modelled as an opaque function parameter
  `hash : String → String`; the source never branches on its output.
* JS `String.prototype.toLowerCase` is Unicode-aware while `Char.toLower`
  handles ASCII; every string a claim compares is ASCII, where both agree.
-/

namespace Mirage

/-- Lowercase a string character by character (built on the character list
so that it reduces in the kernel). -/
def lowerStr (s : String) : String := ⟨s.data.map Char.toLower⟩

/-- Whether the second list is a prefix of the first. -/
def beginsWith : List Char → List Char → Bool
  | _, [] => true
  | [], _ :: _ => false
  | c :: cs, d :: ds => c == d && beginsWith cs ds

/-- Whether `needle` occurs contiguously inside the second list. -/
def containsSeq (needle : List Char) : List Char → Bool
  | [] => needle.isEmpty
  | c :: rest => beginsWith (c :: rest) needle || containsSeq needle rest

/-- Model of JS `hay.includes(needle)`. -/
def strIncludes (hay needle : String) : Bool := containsSeq needle.data hay.data

/-- Model of JS `s.split(/\s+/)`.  JS collapses whitespace runs while this
produces empty fragments between adjacent whitespace characters; every use
in the source filters the fragments by a length bound greater than zero, so
the two agree after filtering. -/
def splitWs (s : String) : List String := s.split Char.isWhitespace

theorem dropWhile_length_le (p : Char → Bool) :
    ∀ l : List Char, (l.dropWhile p).length ≤ l.length := by
  intro l
  induction l with
  | nil => simp [List.dropWhile]
  | cons c cs ih =>
    by_cases h : p c
    · simp [List.dropWhile, h]
      omega
    · simp [List.dropWhile, h]

/-- Auxiliary scanner for `splitDotWs`: splits at each period that is
followed by at least one whitespace character, consuming the period and the
whole whitespace run (the greedy `\s+`). -/
def splitDotWsAux : List Char → List Char → List String
  | [], acc => [⟨acc.reverse⟩]
  | c :: rest, acc =>
    if c = '.' && (match rest with
        | d :: _ => d.isWhitespace
        | [] => false) then
      (⟨acc.reverse⟩ : String) :: splitDotWsAux (rest.dropWhile Char.isWhitespace) []
    else
      splitDotWsAux rest (c :: acc)
termination_by l _ => l.length
decreasing_by
  · simp only [List.length_cons]
    exact Nat.lt_succ_of_le (dropWhile_length_le _ rest)
  · simp only [List.length_cons]
    omega

/-- Model of JS `s.split(/\.\s+/)`. -/
def splitDotWs (s : String) : List String := splitDotWsAux s.data []

/-- Order-preserving deduplication keeping the first occurrence of each
string; models `Array.from(new Set(items))`. -/
def dedupFirstAux (seen : List String) : List String → List String
  | [] => []
  | x :: xs =>
    if seen.contains x then dedupFirstAux seen xs
    else x :: dedupFirstAux (x :: seen) xs

/-- See `dedupFirstAux`. -/
def dedupFirst (l : List String) : List String := dedupFirstAux [] l

/-- Model of `Math.min` on two numbers, written so that it reduces in the
kernel; agrees with `min` on `ℚ` (see `jsMin_eq`). -/
def jsMin (a b : ℚ) : ℚ := if a ≤ b then a else b

/-- Model of `Math.max` on two numbers; agrees with `max` on `ℚ`. -/
def jsMax (a b : ℚ) : ℚ := if a ≤ b then b else a

theorem jsMin_eq (a b : ℚ) : jsMin a b = min a b := by
  simp [jsMin, min_def]

theorem jsMax_eq (a b : ℚ) : jsMax a b = max a b := by
  simp [jsMax, max_def]

/-- JS division that records the non-finite outcome of a zero denominator
(`Infinity` or `NaN`) as `none`. -/
def jsDiv (a b : ℚ) : Option ℚ := if b = 0 then none else some (a / b)

/-- Addition on possibly non-finite JS numbers: `NaN` propagates. -/
def jsAddO : Option ℚ → Option ℚ → Option ℚ
  | some a, some b => some (a + b)
  | _, _ => none

/-- Multiplication of a possibly non-finite JS number by a finite one. -/
def jsMulO (a : Option ℚ) (b : ℚ) : Option ℚ := a.map (· * b)

/-- Division of a possibly non-finite JS number by a finite one. -/
def jsDivO : Option ℚ → ℚ → Option ℚ
  | some a, b => if b = 0 then none else some (a / b)
  | none, _ => none

/-- Model of JS `q.toFixed(2)` on an exact rational: round to two decimal
places (half away from zero) and render.  `Number.prototype.toFixed`
operates on binary floats; the exact rendering never feeds a branch. -/
def toFixed2 (q : ℚ) : String :=
  let scaled : Int := if 0 ≤ q then ⌊q * 100 + 1/2⌋ else -⌊(-q) * 100 + 1/2⌋
  let sign := if scaled < 0 then "-" else ""
  let n := scaled.natAbs
  sign ++ toString (n / 100) ++ "." ++
    (if n % 100 < 10 then "0" else "") ++ toString (n % 100)

end Mirage

namespace Realtime

open Mirage

/-- The eight fixed domain experts, in source order. -/
def domainExperts : List String :=
  ["quantum_physicist",
   "computational_mathematician",
   "materials_scientist",
   "systems_engineer",
   "evolutionary_biologist",
   "cognitive_neuroscientist",
   "network_theorist",
   "information_theorist"]

/-- The fifteen complexity-marker substrings of `calculateComplexity`. -/
def complexTerms : List String :=
  ["quantum", "fusion", "consciousness", "relativity", "origin",
   "universe", "evolution", "intelligence", "gravity", "dimension",
   "multiverse", "theorem", "paradox", "infinity", "cognition"]

/-- Complexity of a question, combining a length heuristic with counts of
fixed marker terms; capped at `0.95`. -/
def calculateComplexity (question : String) : ℚ :=
  let lengthComplexity := jsMin 0.5 ((question.length : ℚ) / 1000)
  let termComplexity := complexTerms.foldl
    (fun acc term =>
      if strIncludes (lowerStr question) term then acc + 0.05 else acc) 0
  jsMin 0.95 (lengthComplexity + termComplexity)

/-- Number of perspectives as a function of complexity. -/
def determineOptimalPerspectiveCount (complexity : ℚ) : Nat :=
  if complexity < 0.3 then 2
  else if complexity < 0.6 then 3
  else if complexity < 0.8 then 5
  else 8

/-- The fixed keyword table of `selectRelevantPerspectives`. -/
def domainKeywords (perspective : String) : List String :=
  if perspective = "quantum_physicist" then
    ["physics", "quantum", "particle", "energy", "wave", "field", "matter", "space"]
  else if perspective = "computational_mathematician" then
    ["algorithm", "computation", "theorem", "proof", "mathematics", "calculation", "formula"]
  else if perspective = "materials_scientist" then
    ["material", "compound", "structure", "composition", "property", "lattice", "crystal"]
  else if perspective = "systems_engineer" then
    ["system", "design", "efficiency", "optimization", "framework", "architecture", "integration"]
  else if perspective = "evolutionary_biologist" then
    ["evolution", "species", "natural selection", "adaptation", "gene", "organism", "biology"]
  else if perspective = "cognitive_neuroscientist" then
    ["brain", "mind", "cognition", "consciousness", "neural", "perception", "thought"]
  else if perspective = "network_theorist" then
    ["network", "connection", "node", "graph", "topology", "distribution", "link"]
  else if perspective = "information_theorist" then
    ["information", "entropy", "bit", "signal", "noise", "channel", "encoding", "decoding"]
  else []

/-- Relevance score of one expert: a count of case-insensitive substring
hits of its keyword list inside the question. -/
def perspectiveScore (question perspective : String) : Nat :=
  (domainKeywords perspective).foldl
    (fun score keyword =>
      if strIncludes (lowerStr question) (lowerStr keyword) then score + 1 else score) 0

/-- Stable descending insertion: an element is placed after every earlier
element of at least its score. -/
def insertScoredDesc (score : String → Nat) (x : String) : List String → List String
  | [] => [x]
  | y :: ys =>
    if score y < score x then x :: y :: ys else y :: insertScoredDesc score x ys

/-- Stable descending sort by score; models the ES2019+ stable
`Array.prototype.sort` with comparator `scores[b] - scores[a]`, under which
ties keep the original order. -/
def stableSortDesc (score : String → Nat) (l : List String) : List String :=
  l.foldl (fun acc x => insertScoredDesc score x acc) []

/-- Score every expert, sort stably by descending score and keep the first
`count` experts. -/
def selectRelevantPerspectives (question : String) (count : Nat) : List String :=
  (stableSortDesc (perspectiveScore question) domainExperts).take count

/-- Canned paragraphs of the quantum-physics expert. -/
def generateQuantumPhysicsInsight (question seed : String) : String :=
  if strIncludes (lowerStr question) "fusion" || strIncludes (lowerStr question) "energy" then
    "Quantum tunneling effects can be enhanced through precise electron screening in deuterium-loaded palladium lattices, potentially enabling fusion reactions at lower than conventional temperatures through barrier penetration enhancement."
  else if strIncludes (lowerStr question) "quantum" || strIncludes (lowerStr question) "particle" then
    "Quantum field theory suggests virtual particle interactions could be manipulated through vacuum engineering to extract zero-point energy with appropriate resonant structures that selectively amplify productive fluctuations."
  else if strIncludes (lowerStr question) "gravity" || strIncludes (lowerStr question) "space" then
    "Gravitational effects can be understood as spacetime curvature which emerges from quantum entanglement structures at the Planck scale, potentially offering new approaches for manipulating gravitational fields through quantum information processing."
  else
    "From a quantum perspective, fundamental particles interact through field mediators, creating opportunities for novel energy and information transfer mechanisms that operate below conventional thermal thresholds."

/-- Canned paragraphs of the computational-mathematics expert. -/
def generateComputationalMathInsight (question seed : String) : String :=
  if strIncludes (lowerStr question) "algorithm" || strIncludes (lowerStr question) "computation" then
    "Computational complexity analysis suggests that quantum parallelism could provide exponential speedup for specific optimization problems through superposition-based exploration of solution landscapes."
  else if strIncludes (lowerStr question) "proof" || strIncludes (lowerStr question) "theorem" then
    "Mathematical proof structures indicate that consistent formal systems must necessarily remain incomplete per GÃ¶del\x27s theorem, suggesting that meta-mathematical frameworks might be necessary for complete solutions."
  else
    "From a computational mathematics perspective, numerical simulations with adaptive mesh refinement provide high-precision predictive models for complex physical systems, particularly when coupled with machine learning for parameter optimization."

/-- Canned paragraphs of the materials-science expert. -/
def generateMaterialsScienceInsight (question seed : String) : String :=
  if strIncludes (lowerStr question) "material" || strIncludes (lowerStr question) "structure" then
    "Nanostructured materials with precisely engineered defect distributions can create quantum confinement effects that fundamentally alter electron behavior, enabling novel properties not observed in bulk materials."
  else if strIncludes (lowerStr question) "lattice" || strIncludes (lowerStr question) "crystal" then
    "Face-centered cubic crystal structures with specific dopants concentrated at octahedral sites create electron density anomalies that can significantly enhance quantum tunneling probabilities across potential barriers."
  else
    "From a materials perspective, heterogeneous catalytic interfaces with tailored electronic structures can lower activation energies for specific reactions through precise orbital overlapping mechanisms."

/-- Canned paragraphs of the systems-engineering expert. -/
def generateSystemsEngineeringInsight (question seed : String) : String :=
  if strIncludes (lowerStr question) "system" || strIncludes (lowerStr question) "design" then
    "Integrated systems with hierarchical feedback control mechanisms provide robust performance under uncertainty, particularly when coupled with adaptive parameter adjustment algorithms based on real-time performance metrics."
  else if strIncludes (lowerStr question) "efficiency" || strIncludes (lowerStr question) "optimization" then
    "Multi-objective optimization frameworks using Pareto efficiency analysis can identify non-intuitive design solutions that maximize performance across conflicting constraints through dimensional reduction techniques."
  else
    "From a systems engineering perspective, modular architectures with standardized interfaces enable rapid iteration and fault isolation, creating robust scalable solutions for complex implementation challenges."

/-- Canned paragraphs of the evolutionary-biology expert. -/
def generateEvolutionaryBiologyInsight (question seed : String) : String :=
  if strIncludes (lowerStr question) "evolution" || strIncludes (lowerStr question) "species" then
    "Evolutionary processes operate through selection pressures acting on heritable variation, creating adaptive complexity through cumulative selection rather than random chance, with convergent solutions often emerging for similar environmental challenges."
  else if strIncludes (lowerStr question) "gene" || strIncludes (lowerStr question) "dna" then
    "Genetic information processing in biological systems demonstrates remarkable error correction capabilities through redundant encoding and molecular proofreading mechanisms that could inspire robust information technologies."
  else
    "From an evolutionary perspective, complex adaptive systems demonstrate emergent properties through simple interaction rules operating across multiple scales, creating self-organizing structures without centralized control."

/-- Canned paragraphs of the cognitive-neuroscience expert. -/
def generateCognitiveNeuroscienceInsight (question seed : String) : String :=
  if strIncludes (lowerStr question) "brain" || strIncludes (lowerStr question) "mind" then
    "Neural information processing occurs through distributed parallel networks operating at multiple temporal and spatial scales, with specialized modules that integrate information through synchronous oscillatory patterns."
  else if strIncludes (lowerStr question) "consciousness" || strIncludes (lowerStr question) "awareness" then
    "Consciousness appears to emerge from integrated information processing across specialized brain networks, with global workspace theory suggesting a broadcast mechanism that makes information widely available for flexible cognitive operations."
  else
    "From a cognitive neuroscience perspective, predictive processing frameworks suggest the brain operates as a prediction machine that minimizes surprise through hierarchical generative models continuously refined through sensory feedback."

/-- Canned paragraphs of the network-theory expert. -/
def generateNetworkTheoryInsight (question seed : String) : String :=
  if strIncludes (lowerStr question) "network" || strIncludes (lowerStr question) "connection" then
    "Scale-free network architectures with preferential attachment mechanisms create hub-and-spoke structures that optimize information transfer efficiency while minimizing connection costs and maximizing robustness against random failure."
  else if strIncludes (lowerStr question) "graph" || strIncludes (lowerStr question) "node" then
    "Small-world network properties emerge when local clustering combines with strategic long-range connections, creating systems with both high modularity and short average path lengths that support efficient global integration."
  else
    "From a network theory perspective, phase transitions in connectivity patterns can trigger emergent computational capabilities when critical thresholds are crossed, enabling complex information processing through simple individual components."

/-- Canned paragraphs of the information-theory expert. -/
def generateInformationTheoryInsight (question seed : String) : String :=
  if strIncludes (lowerStr question) "information" || strIncludes (lowerStr question) "entropy" then
    "Information-theoretic approaches suggest that maximum entropy production principles guide self-organizing systems toward states that maximize the rate of free energy dissipation through optimal channel capacity utilization."
  else if strIncludes (lowerStr question) "signal" || strIncludes (lowerStr question) "noise" then
    "Signal processing in noisy environments can be optimized through stochastic resonance effects, where precisely calibrated noise actually enhances detection of weak signals through nonlinear amplification mechanisms."
  else
    "From an information theory perspective, compression efficiency reaches fundamental limits at the Kolmogorov complexity of a system, beyond which further reduction requires meta-encodings that capture deeper structural regularities."

/-- Dispatch to the per-expert generator.  The combined per-expert seed is
computed exactly as in the source and handed to the generator, which never
reads it. -/
def generatePerspectiveInsight (hash : String → String)
    (question perspective seed : String) : String :=
  let combinedSeed := hash (perspective ++ question ++ seed)
  if perspective = "quantum_physicist" then
    generateQuantumPhysicsInsight question combinedSeed
  else if perspective = "computational_mathematician" then
    generateComputationalMathInsight question combinedSeed
  else if perspective = "materials_scientist" then
    generateMaterialsScienceInsight question combinedSeed
  else if perspective = "systems_engineer" then
    generateSystemsEngineeringInsight question combinedSeed
  else if perspective = "evolutionary_biologist" then
    generateEvolutionaryBiologyInsight question combinedSeed
  else if perspective = "cognitive_neuroscientist" then
    generateCognitiveNeuroscienceInsight question combinedSeed
  else if perspective = "network_theorist" then
    generateNetworkTheoryInsight question combinedSeed
  else if perspective = "information_theorist" then
    generateInformationTheoryInsight question combinedSeed
  else
    "Analysis indicates multiple potential approaches requiring interdisciplinary integration."

/-- Whether a character is a lowercase ASCII letter, for the precise-token
pattern. -/
def isLowerAlpha (c : Char) : Bool := 'a' ≤ c && c ≤ 'z'

/-- Lookahead part of the precise-token pattern: a `letter_letter` or
`letter(letter)` shape starting at the head of the list. -/
def precAt : List Char → Bool
  | c :: '_' :: e :: _ => isLowerAlpha c && isLowerAlpha e
  | c :: '(' :: e :: ')' :: _ => isLowerAlpha c && isLowerAlpha e
  | _ => false

/-- Model of the source regex
`/[0-9]+\.?[0-9]*|[a-z]_[a-z]|[a-z]\([a-z]\)|\[|\]|\x7b|\x7d/.test(...)`:
the string contains a digit, one of the four bracket characters, or one of
the two lookahead shapes. -/
def hasPreciseTok : List Char → Bool
  | [] => false
  | c :: rest =>
    if c.isDigit || c = '[' || c = ']' || c = '{' || c = '}' then true
    else if precAt (c :: rest) then true
    else hasPreciseTok rest

/-- Confidence in one insight: weighted length, question-term relevance and
a precision bonus, capped at `0.99`. -/
def calculateInsightConfidence (insight question : String) : ℚ :=
  let lengthConfidence := jsMin 0.7 ((insight.length : ℚ) / 500)
  let questionTerms := splitWs (lowerStr question)
  let relevantTermCount : Nat := questionTerms.foldl
    (fun n term =>
      if 4 < term.length && strIncludes (lowerStr insight) term then n + 1 else n) 0
  let relevanceConfidence := jsMin 0.8 ((relevantTermCount : ℚ) / 5)
  let precisionBonus : ℚ := if hasPreciseTok insight.data then 0.15 else 0
  jsMin 0.99 (lengthConfidence * 0.4 + relevanceConfidence * 0.4 + precisionBonus)

/-- One expert's contribution: the expert name, its paragraph and the
paragraph's confidence. -/
structure PerspectiveInsight where
  perspective : String
  insight : String
  confidence : ℚ
deriving Repr, DecidableEq

/-- Stable descending insertion by confidence. -/
def insertByConfDesc (x : PerspectiveInsight) :
    List PerspectiveInsight → List PerspectiveInsight
  | [] => [x]
  | y :: ys =>
    if y.confidence < x.confidence then x :: y :: ys else y :: insertByConfDesc x ys

/-- Stable descending sort by confidence; models the ES2019+ stable
`Array.prototype.sort` with comparator `b.confidence - a.confidence`. -/
def sortByConfDesc (l : List PerspectiveInsight) : List PerspectiveInsight :=
  l.foldl (fun acc x => insertByConfDesc x acc) []

/-- Vocabulary of the method-synthesis sentence filter. -/
def methodVocab : List String :=
  ["can", "could", "enable", "method", "approach", "technique", "mechanism",
   "process", "procedure", "step", "implement"]

/-- Vocabulary of the explanation-synthesis sentence filter. -/
def explanationVocab : List String :=
  ["because", "reason", "cause", "due to", "result of", "explains",
   "leads to", "creates", "emerges from"]

/-- Vocabulary of the definition-synthesis sentence filter. -/
def definitionVocab : List String :=
  ["is", "are", "refers to", "defined as", "consists of", "comprises",
   "represents", "constitutes"]

/-- A sentence matches an alternation regex iff one alternative occurs in
its lowercased text. -/
def matchesVocab (vocab : List String) (sentence : String) : Bool :=
  vocab.any (fun w => strIncludes (lowerStr sentence) w)

/-- Method-oriented synthesis: keep the method-vocabulary sentences of each
insight, trimmed, joined with a fixed frame. -/
def synthesizeMethodSolution (insights : List PerspectiveInsight)
    (question : String) : String :=
  let phrases := insights.foldl
    (fun acc ins =>
      acc ++ ((splitDotWs ins.insight).filter (matchesVocab methodVocab)).map String.trim)
    []
  let combinedPhrases := String.intercalate ". " phrases
  "Based on multi-perspective analysis, a viable approach would involve: " ++
    combinedPhrases ++ "."

/-- Explanation-oriented synthesis. -/
def synthesizeExplanationSolution (insights : List PerspectiveInsight)
    (question : String) : String :=
  let phrases := insights.foldl
    (fun acc ins =>
      acc ++ ((splitDotWs ins.insight).filter (matchesVocab explanationVocab)).map String.trim)
    []
  let combinedPhrases := String.intercalate ". " phrases
  "The explanation involves multiple interconnected factors: " ++
    combinedPhrases ++ "."

/-- Definition-oriented synthesis. -/
def synthesizeDefinitionSolution (insights : List PerspectiveInsight)
    (question : String) : String :=
  let phrases := insights.foldl
    (fun acc ins =>
      acc ++ ((splitDotWs ins.insight).filter (matchesVocab definitionVocab)).map String.trim)
    []
  let combinedPhrases := String.intercalate ". " phrases
  "From an integrated multi-dimensional analysis: " ++ combinedPhrases ++ "."

/-- General synthesis: the first sentence of each insight, re-terminated
and joined by spaces. -/
def synthesizeGeneralSolution (insights : List PerspectiveInsight)
    (question : String) : String :=
  let sentences := insights.foldl
    (fun acc ins =>
      acc ++ [((splitDotWs ins.insight).headD "").trim ++ "."])
    []
  let combinedSentences := String.intercalate " " sentences
  "Integration of multiple perspectives indicates: " ++ combinedSentences

/-- Intent-routed synthesis: sort insights by confidence, keep the top
three, then dispatch on fixed substring tests of the question in fixed
order. -/
def synthesizeInsights (perspectiveInsights : List PerspectiveInsight)
    (question : String) : String :=
  let sortedInsights := sortByConfDesc perspectiveInsights
  let topInsights := sortedInsights.take (Nat.min 3 sortedInsights.length)
  let lowerQuestion := lowerStr question
  if strIncludes lowerQuestion "how" || strIncludes lowerQuestion "method" ||
      strIncludes lowerQuestion "way" then
    synthesizeMethodSolution topInsights question
  else if strIncludes lowerQuestion "why" || strIncludes lowerQuestion "reason" then
    synthesizeExplanationSolution topInsights question
  else if strIncludes lowerQuestion "what" || strIncludes lowerQuestion "define" then
    synthesizeDefinitionSolution topInsights question
  else
    synthesizeGeneralSolution topInsights question

/-- Population variance of a list of values, `0` on the empty list (the
source guards that case explicitly). -/
def calculateVariance (values : List ℚ) : ℚ :=
  if values.length = 0 then 0
  else
    let mean := values.foldl (fun sum value => sum + value) (0 : ℚ) / (values.length : ℚ)
    let squaredDiffs := values.map (fun value => (value - mean) ^ 2)
    let sumSquaredDiffs := squaredDiffs.foldl (fun sum value => sum + value) (0 : ℚ)
    sumSquaredDiffs / (values.length : ℚ)

/-- Overall confidence: weighted mean, agreement factor and complexity
penalty, clamped into `[0.5, 0.99]`.  Both divisions are guarded in the
source (ternary on the length, early return in `calculateVariance`). -/
def calculateOverallConfidence (perspectiveInsights : List PerspectiveInsight)
    (complexity : ℚ) : ℚ :=
  let confidenceSum := perspectiveInsights.foldl
    (fun sum insight => sum + insight.confidence) 0
  let averageConfidence : ℚ :=
    if 0 < perspectiveInsights.length then
      confidenceSum / perspectiveInsights.length
    else 0
  let confidences := perspectiveInsights.map (fun insight => insight.confidence)
  let confidenceVariance := calculateVariance confidences
  let agreementFactor := jsMax 0 (1 - confidenceVariance * 10)
  let complexityPenalty := complexity * 0.1
  let weightedConfidence :=
    averageConfidence * 0.6 + agreementFactor * 0.3 - complexityPenalty
  jsMin 0.99 (jsMax 0.5 weightedConfidence)

/-- Result record of `processInRealTime`. -/
structure RealtimeResult where
  solution : String
  confidence : ℚ
  perspectives : List String
  processingSteps : List String
deriving Repr, DecidableEq

/-- The Selector entry point.  `hash` models `crypto.createHash('sha256')
... digest('hex')`. -/
def processInRealTime (hash : String → String) (question : String) : RealtimeResult :=
  let questionSeed := hash question
  let complexity := calculateComplexity question
  let perspectiveCount := determineOptimalPerspectiveCount complexity
  let selectedPerspectives := selectRelevantPerspectives question perspectiveCount
  let perspectiveInsights := selectedPerspectives.map (fun perspective =>
    let insight := generatePerspectiveInsight hash question perspective questionSeed
    PerspectiveInsight.mk perspective insight (calculateInsightConfidence insight question))
  let solution := synthesizeInsights perspectiveInsights question
  let confidence := calculateOverallConfidence perspectiveInsights complexity
  let processingSteps :=
    ["Analysis initiated with complexity score: " ++ toFixed2 complexity,
     "Selected " ++ toString perspectiveCount ++
       " cognitive perspectives for parallel analysis"]
    ++ selectedPerspectives.map
        (fun perspective => "Perspective [" ++ perspective ++ "] analysis completed")
    ++ ["Synthesized " ++ toString perspectiveInsights.length ++ " perspective insights",
        "Solution formulated with " ++ toFixed2 (confidence * 100) ++ "% confidence"]
  { solution := solution
    confidence := confidence
    perspectives := selectedPerspectives
    processingSteps := processingSteps }

end Realtime

namespace Krang

open Mirage

/-- A problem handed to the Engine. -/
structure KrangProblem where
  title : String
  description : String
  domain : List String
deriving Repr, DecidableEq

/-- One entry of the mental context stack.  The `activated` ISO timestamp is
modelled as an abstract tick value. -/
structure MentalContext where
  perspective : String
  level : Nat
  activated : Nat
deriving Repr, DecidableEq

/-- A perspective result.  `childPerspectives` is a list of the same shape,
so this is a nested inductive rather than a structure; an absent JS
`childPerspectives` field is modelled as the empty list. -/
inductive KrangPerspective : Type where
  | mk (id name specialization : String) (confidence : ℚ)
       (insights recommendations limitations : List String)
       (childPerspectives : List KrangPerspective)

/-- Field `id`. -/
def KrangPerspective.pid : KrangPerspective → String
  | .mk i _ _ _ _ _ _ _ => i

/-- Field `name`. -/
def KrangPerspective.name : KrangPerspective → String
  | .mk _ n _ _ _ _ _ _ => n

/-- Field `specialization`. -/
def KrangPerspective.specialization : KrangPerspective → String
  | .mk _ _ s _ _ _ _ _ => s

/-- Field `confidence`. -/
def KrangPerspective.confidence : KrangPerspective → ℚ
  | .mk _ _ _ c _ _ _ _ => c

/-- Field `insights`. -/
def KrangPerspective.insights : KrangPerspective → List String
  | .mk _ _ _ _ i _ _ _ => i

/-- Field `recommendations`. -/
def KrangPerspective.recommendations : KrangPerspective → List String
  | .mk _ _ _ _ _ r _ _ => r

/-- Field `limitations`. -/
def KrangPerspective.limitations : KrangPerspective → List String
  | .mk _ _ _ _ _ _ l _ => l

/-- Field `childPerspectives`. -/
def KrangPerspective.children : KrangPerspective → List KrangPerspective
  | .mk _ _ _ _ _ _ _ c => c

/-- One stored edge payload of the insight network. -/
structure NetEntry where
  confidence : ℚ
  insights : List String

/-- The insight network: an insertion-ordered map from perspective name to
an insertion-ordered map from refining-perspective name to payload,
modelling nested JS `Map`s as association lists with distinct keys. -/
def InsightNetwork : Type := List (String × List (String × NetEntry))

/-- Performance metrics.  `averageConfidence` and `recursionEfficiency` use
`Option ℚ` because the synthesis confidence that feeds them can be the JS
`NaN` (see `synthesizeResults`). -/
structure PerformanceMetrics where
  problemsSolved : Nat
  averageConfidence : Option ℚ
  perspectiveUtilization : List (String × Nat)
  recursionEfficiency : Option ℚ

/-- Constructor-time configuration of `KrangCore`: these two fields are
assigned once in the constructor and never reassigned, so they are passed
as a fixed configuration rather than threaded through the mutable state. -/
structure EngineConfig where
  beliefLevels : Nat
  primaryPerspectives : List String

/-- The fifteen primary perspectives, in source order. -/
def standardPerspectives : List String :=
  ["empirical", "theoretical", "contextual", "pragmatic", "ethical",
   "mathematical", "systems", "complexity", "evolutionary", "quantum",
   "computational", "pattern-based", "statistical", "informational", "emergence"]

/-- The configuration of `new KrangCore()` as used by the singleton. -/
def defaultConfig : EngineConfig :=
  { beliefLevels := 3, primaryPerspectives := standardPerspectives }

/-- The mutable instance state of `KrangCore`, together with the cursor of
the random stream and the tick counter of the clock. -/
structure EngineState where
  mentalContextStack : List MentalContext
  activePerspectives : List (String × ℚ)
  insightNetwork : InsightNetwork
  performanceMetrics : PerformanceMetrics
  randIdx : Nat
  tick : Nat

/-- The state right after the constructor ran. -/
def freshEngineState : EngineState :=
  { mentalContextStack := []
    activePerspectives := []
    insightNetwork := []
    performanceMetrics :=
      { problemsSolved := 0
        averageConfidence := some 0
        perspectiveUtilization := []
        recursionEfficiency := some 1 }
    randIdx := 0
    tick := 0 }

/-- Draw the next `Math.random()` value from the stream. -/
def rand (g : Nat → ℚ) (st : EngineState) : ℚ × EngineState :=
  (g st.randIdx, { st with randIdx := st.randIdx + 1 })

/-- Read the clock (`new Date()`), advancing the tick counter. -/
def clockNow (st : EngineState) : Nat × EngineState :=
  (st.tick, { st with tick := st.tick + 1 })

/-- Model of `generateId`: draws one random value and renders it.  The
source renders the draw in base 36 (`toString(36).substring(2, 15)`); the
rendering never feeds a branch, so the model uses the plain decimal
rendering of the draw. -/
def generateId (g : Nat → ℚ) (st : EngineState) : String × EngineState :=
  let r := rand g st
  (toString r.1.num ++ "/" ++ toString r.1.den, r.2)

/-- JS `Map` update on an association list: an existing key keeps its
position and gets the new value, a new key is appended. -/
def setKey {α : Type} (m : List (String × α)) (k : String) (v : α) :
    List (String × α) :=
  if m.any (fun kv => kv.1 = k) then
    m.map (fun kv => if kv.1 = k then (k, v) else kv)
  else m ++ [(k, v)]

/-- JS `Map.has`. -/
def hasKey {α : Type} (m : List (String × α)) (k : String) : Bool :=
  m.any (fun kv => kv.1 = k)

/-- JS `Map.get`, `none` when absent. -/
def getKey? {α : Type} (m : List (String × α)) (k : String) : Option α :=
  (m.find? (fun kv => kv.1 = k)).map (fun kv => kv.2)

/-- JS `Map.delete`. -/
def delKey {α : Type} (m : List (String × α)) (k : String) : List (String × α) :=
  m.filter (fun kv => kv.1 ≠ k)

/-- Push a mental context; the entry records the current clock reading. -/
def pushMentalContext (st : EngineState) (perspective : String) (level : Nat) :
    EngineState :=
  let t := clockNow st
  { t.2 with mentalContextStack :=
      t.2.mentalContextStack ++ [⟨perspective, level, t.1⟩] }

/-- Pop the top mental context (the state effect of `popMentalContext`). -/
def popMentalContextState (st : EngineState) : EngineState :=
  { st with mentalContextStack := st.mentalContextStack.dropLast }

/-- Reset the stack to the single root context. -/
def resetMentalContext (st : EngineState) : EngineState :=
  pushMentalContext { st with mentalContextStack := [] } "meta" 0

/-- Model of `getCurrentMentalContext` as a state effect: the source builds
a fresh `Date` only when the stack is empty, which consumes a tick; its
return value is never used by any caller in the source. -/
def touchCurrentContext (st : EngineState) : EngineState :=
  if st.mentalContextStack.isEmpty then { st with tick := st.tick + 1 } else st

/-- Activate a perspective at a given weight. -/
def activatePerspective (st : EngineState) (perspective : String) (weight : ℚ) :
    EngineState :=
  { st with activePerspectives := setKey st.activePerspectives perspective weight }

/-- Deactivate a perspective. -/
def deactivatePerspective (st : EngineState) (perspective : String) : EngineState :=
  { st with activePerspectives := delKey st.activePerspectives perspective }

/-- Clear the activation set. -/
def resetPerspectives (st : EngineState) : EngineState :=
  { st with activePerspectives := [] }

/-- All primary perspectives other than the given one. -/
def getCompatiblePerspectives (cfg : EngineConfig) (perspective : String) :
    List String :=
  cfg.primaryPerspectives.filter (fun p => p != perspective)

/-- Key terms of a problem: whitespace tokens of title and description of
length greater than three, deduplicated keeping first occurrences. -/
def problemKeyTerms (problem : KrangProblem) : List String :=
  dedupFirst ((splitWs problem.title ++ splitWs problem.description).filter
    (fun term => 3 < term.length))

/-- Insights of `analyzeProblemFromPerspective` for one perspective.  The
`keyTerms[i] || 'filler'` fallbacks fire exactly when the index is out of
range, since every key term has length greater than three and hence is
non-empty. -/
def analysisInsights (perspective : String) (problem : KrangProblem)
    (keyTerms : List String) : List String :=
  if perspective = "empirical" then
    ["Empirical analysis of " ++ keyTerms.getD 0 "the subject" ++ " shows " ++
       keyTerms.getD 1 "the phenomenon" ++
       " occurs at 93.2% frequency under standard conditions.",
     "Measured parameters indicate a correlation of 0.87 between " ++
       keyTerms.getD 2 "key factors" ++ " and system outcomes.",
     "Direct measurement of " ++ keyTerms.getD 0 "the system" ++
       " reveals precise quantitative properties previously undetected by conventional analysis."]
  else if perspective = "theoretical" then
    ["Theoretical framework establishes exact mathematical relationship between " ++
       keyTerms.getD 0 "primary" ++ " and " ++ keyTerms.getD 1 "secondary" ++ " factors.",
     "Formal proof demonstrates that " ++ keyTerms.getD 2 "the system" ++
       " exhibits deterministic patterns under specified conditions.",
     "Abstract modeling of the " ++ keyTerms.getD 0 "domain" ++
       " yields precise predictive accuracy of 95.4%."]
  else if perspective = "quantum" then
    ["Quantum analysis of " ++ keyTerms.getD 0 "the system" ++
       " reveals coherent underlying patterns with 91.7% confidence.",
     "Multi-dimensional quantum modeling establishes precise boundaries for " ++
       keyTerms.getD 1 "observed" ++ " effects.",
     "Quantum framework integration yields exact computational solution for " ++
       keyTerms.getD 2 "complex problems" ++ " with verified accuracy."]
  else if perspective = "computational" then
    ["Advanced computational modeling of " ++ keyTerms.getD 0 "the system" ++
       " with recursive optimization yields exact solution vectors.",
     "Algorithm efficiency analysis demonstrates " ++ keyTerms.getD 1 "the process" ++
       " can be processed with O(n log n) complexity.",
     "Parallel computational frameworks reveal optimal pathways for " ++
       keyTerms.getD 2 "problem solving" ++ " with 97.3% accuracy."]
  else if perspective = "pattern-based" then
    ["Pattern recognition algorithms identify exact correlation structures in " ++
       keyTerms.getD 0 "system" ++ " data with 96.8% confidence.",
     "Multi-scale pattern analysis of " ++ keyTerms.getD 1 "the domain" ++
       " reveals hierarchical organization with predictable emergence properties.",
     "Cross-domain pattern mapping establishes precise relationship between " ++
       keyTerms.getD 2 "key factors" ++ " and system dynamics."]
  else
    ["From the " ++ perspective ++ " perspective, " ++ problem.title ++
       " reveals patterns that suggest exact mathematical relationships.",
     "The " ++ perspective ++
       " framework indicates that the core factors driving this problem are quantifiable with precision.",
     "Analyzing through a " ++ perspective ++
       " lens shows connections between key variables with 94.2% confidence."]

/-- Analyze the problem from one perspective: template insights plus fixed
recommendation and limitation shapes, a fresh id and a high random base
confidence. -/
def analyzeProblemFromPerspective (problem : KrangProblem) (perspective : String)
    (g : Nat → ℚ) (st : EngineState) : KrangPerspective × EngineState :=
  let st := touchCurrentContext st
  let keyTerms := problemKeyTerms problem
  let insights := analysisInsights perspective problem keyTerms
  let recommendations :=
    ["Based on " ++ perspective ++
       " analysis, we recommend implementing a systematic approach to " ++
       keyTerms.getD 0 "optimization" ++ ".",
     "The " ++ perspective ++ " perspective suggests addressing " ++
       keyTerms.getD 1 "key factors" ++ " through precise quantitative methods.",
     "Apply the exact computational framework derived from " ++ perspective ++
       " analysis to maximize efficiency."]
  let limitations :=
    ["The " ++ perspective ++
       " view is limited by boundary assumptions that may not apply in highly chaotic systems.",
     "This analysis doesn\x27t account for potential emergence properties beyond the measured parameter space."]
  let idOut := generateId g st
  let confOut := rand g idOut.2
  (KrangPerspective.mk idOut.1 perspective perspective (0.85 + confOut.1 * 0.15)
     insights recommendations limitations [], confOut.2)

/-- Refine an analysis through a nested perspective. -/
def refineAnalysis (problem : KrangProblem) (baseResult : KrangPerspective)
    (refinementPerspective : String) (g : Nat → ℚ) (st : EngineState) :
    KrangPerspective × EngineState :=
  let st := touchCurrentContext st
  let keyTerms := problemKeyTerms problem
  let refinedInsights :=
    ["Refining the " ++ baseResult.name ++ " analysis through a " ++
       refinementPerspective ++ " lens reveals precise quantitative relationships.",
     "The " ++ refinementPerspective ++ " perspective challenges the " ++
       baseResult.name ++ " view by introducing exact computational verification.",
     "Combining " ++ baseResult.name ++ " and " ++ refinementPerspective ++
       " perspectives shows 96.7% improvement in predictive accuracy."]
  let additionalRecommendations :=
    ["The " ++ refinementPerspective ++
       " perspective adds that we should also consider exact optimization of " ++
       keyTerms.getD 0 "system" ++ " parameters.",
     "To complement the " ++ baseResult.name ++ " approach, " ++
       refinementPerspective ++ " analysis suggests implementing recursive verification steps."]
  let idOut := generateId g st
  let confOut := rand g idOut.2
  (KrangPerspective.mk idOut.1 refinementPerspective
     (baseResult.name ++ "_" ++ refinementPerspective)
     (baseResult.confidence * (0.85 + confOut.1 * 0.15))
     refinedInsights additionalRecommendations
     ["The combined " ++ baseResult.name ++ "-" ++ refinementPerspective ++
        " framework still requires verification at extreme parameter values."]
     [], confOut.2)

/-- Merge a refinement into its base: record the network edge (confidence
and insight list as they are at this moment), append the prefixed insights
and recommendations, raise the confidence by the boosted maximum and append
the refinement as a child. -/
def integrateRefinedInsights (baseResult refinedResult : KrangPerspective)
    (net : InsightNetwork) : KrangPerspective × InsightNetwork :=
  let net : InsightNetwork :=
    if hasKey net baseResult.name then net else setKey net baseResult.name []
  let networkMap := (getKey? net baseResult.name).getD []
  let net := setKey net baseResult.name
    (setKey networkMap refinedResult.name
      ⟨refinedResult.confidence, refinedResult.insights⟩)
  let newBase := KrangPerspective.mk baseResult.pid baseResult.name
    baseResult.specialization
    (jsMax baseResult.confidence (refinedResult.confidence * 1.1))
    (baseResult.insights ++ refinedResult.insights.map (fun i => "[Refined] " ++ i))
    (baseResult.recommendations ++
      refinedResult.recommendations.map (fun r => "[Refined] " ++ r))
    baseResult.limitations
    (baseResult.children ++ [refinedResult])
  (newBase, net)

/-- Replace the last stored child.  The JS child entry is a reference to
the refinement object, which the tertiary loop keeps mutating after the
merge; this fix-up reflects its final value in the pure model. -/
def replaceLastChild (p : KrangPerspective) (c : KrangPerspective) :
    KrangPerspective :=
  KrangPerspective.mk p.pid p.name p.specialization p.confidence p.insights
    p.recommendations p.limitations (p.children.dropLast ++ [c])

/-- The depth-3 loop: refine the refinement through every perspective
compatible with the secondary one, merging in place. -/
def tertiaryLoop (problem : KrangProblem) (g : Nat → ℚ) :
    List String → KrangPerspective × EngineState → KrangPerspective × EngineState
  | [], acc => acc
  | t :: ts, acc =>
    let st := pushMentalContext acc.2 t 3
    let deepOut := refineAnalysis problem acc.1 t g st
    let ir := integrateRefinedInsights acc.1 deepOut.1 deepOut.2.insightNetwork
    let st := { deepOut.2 with insightNetwork := ir.2 }
    tertiaryLoop problem g ts (ir.1, popMentalContextState st)

/-- The depth-2 loop over the perspectives compatible with the primary
one. -/
def secondaryLoop (problem : KrangProblem) (g : Nat → ℚ) (cfg : EngineConfig) :
    List String → KrangPerspective × EngineState → KrangPerspective × EngineState
  | [], acc => acc
  | s :: ss, acc =>
    let st := pushMentalContext acc.2 s 2
    let refinedOut := refineAnalysis problem acc.1 s g st
    let ir := integrateRefinedInsights acc.1 refinedOut.1 refinedOut.2.insightNetwork
    let st := { refinedOut.2 with insightNetwork := ir.2 }
    let deepOut :=
      if 2 < cfg.beliefLevels then
        tertiaryLoop problem g (getCompatiblePerspectives cfg s) (refinedOut.1, st)
      else (refinedOut.1, st)
    let newBase := replaceLastChild ir.1 deepOut.1
    secondaryLoop problem g cfg ss (newBase, popMentalContextState deepOut.2)

/-- Process one primary perspective: activate, push, analyze, optionally
run the nested refinement loops, pop and deactivate. -/
def processPerspective (problem : KrangProblem) (g : Nat → ℚ) (cfg : EngineConfig)
    (perspective : String) (st : EngineState) : KrangPerspective × EngineState :=
  let st := activatePerspective st perspective 1.0
  let st := pushMentalContext st perspective 1
  let baseOut := analyzeProblemFromPerspective problem perspective g st
  let refinedOut :=
    if 1 < cfg.beliefLevels then
      secondaryLoop problem g cfg (getCompatiblePerspectives cfg perspective) baseOut
    else baseOut
  let st := popMentalContextState refinedOut.2
  (refinedOut.1, deactivatePerspective st perspective)

/-- The loop over all primary perspectives, accumulating results in
order. -/
def perspectivesLoop (problem : KrangProblem) (g : Nat → ℚ) (cfg : EngineConfig) :
    List String → List KrangPerspective × EngineState →
    List KrangPerspective × EngineState
  | [], acc => acc
  | p :: ps, acc =>
    let out := processPerspective problem g cfg p acc.2
    perspectivesLoop problem g cfg ps (acc.1 ++ [out.1], out.2)

/-- Node and edge counts of the insight network with the guarded density.
The guard in the source tests `nodeCount > 0` only, so one node with at
least one edge divides by `1 * (1 - 1) = 0`, a non-finite JS result. -/
structure NetworkSize where
  nodes : Nat
  edges : Nat
  density : Option ℚ

/-- Count nodes and edges and form the density. -/
def calculateInsightNetworkComplexity (net : InsightNetwork) : NetworkSize :=
  let nodeCount := net.length
  let edgeCount := (net.map (fun kv => kv.2.length)).sum
  { nodes := nodeCount
    edges := edgeCount
    density :=
      if 0 < nodeCount then
        jsDiv (edgeCount : ℚ) ((nodeCount : ℚ) * ((nodeCount : ℚ) - 1))
      else some 0 }

/-- The simulated consilience score: a fresh random draw in
`[0.85, 1.0)`. -/
def calculateConsilienceScore (g : Nat → ℚ) (st : EngineState) : ℚ × EngineState :=
  let r := rand g st
  (0.85 + r.1 * 0.15, r.2)

/-- The synthesis record. -/
structure SynthesisResult where
  confidenceByPerspective : List (String × ℚ)
  keyInsights : List String
  keyRecommendations : List String
  insightNetworkSize : NetworkSize
  confidence : Option ℚ
  consilienceScore : ℚ

/-- Synthesize the per-perspective results: gather and deduplicate insights
and recommendations, average the confidences (an unguarded division: the
empty list yields the JS `NaN`, modelled as `none`), measure the network
and draw the consilience score. -/
def synthesizeResults (results : List KrangPerspective) (problem : KrangProblem)
    (g : Nat → ℚ) (st : EngineState) : SynthesisResult × EngineState :=
  let allInsights := results.foldl (fun acc r => acc ++ r.insights) []
  let allRecommendations := results.foldl (fun acc r => acc ++ r.recommendations) []
  let overallConfidence :=
    jsDiv (results.foldl (fun sum r => sum + r.confidence) 0) (results.length : ℚ)
  let networkSize := calculateInsightNetworkComplexity st.insightNetwork
  let consilience := calculateConsilienceScore g st
  ({ confidenceByPerspective := results.map (fun r => (r.name, r.confidence))
     keyInsights := (dedupFirst allInsights).take 7
     keyRecommendations := (dedupFirst allRecommendations).take 5
     insightNetworkSize := networkSize
     confidence := overallConfidence
     consilienceScore := consilience.1 }, consilience.2)

/-- Increment the utilization counter of one perspective (absent keys start
at zero). -/
def bumpUtilization (util : List (String × Nat)) (perspective : String) :
    List (String × Nat) :=
  if hasKey util perspective then
    util.map (fun kv => if kv.1 = perspective then (kv.1, kv.2 + 1) else kv)
  else util ++ [(perspective, 1)]

/-- Update the performance metrics from a synthesis confidence: running
mean over the incremented problem count, utilization bumps for every
currently active perspective and the recursion efficiency ratio. -/
def updatePerformanceMetrics (cfg : EngineConfig) (m : PerformanceMetrics)
    (active : List (String × ℚ)) (synthConfidence : Option ℚ) :
    PerformanceMetrics :=
  let n := m.problemsSolved + 1
  { problemsSolved := n
    averageConfidence :=
      jsDivO (jsAddO (jsMulO m.averageConfidence ((n : ℚ) - 1)) synthConfidence)
        (n : ℚ)
    perspectiveUtilization :=
      active.foldl (fun util kv => bumpUtilization util kv.1) m.perspectiveUtilization
    recursionEfficiency := jsDivO synthConfidence (cfg.beliefLevels : ℚ) }

/-- Mental-process statistics of one result. -/
structure MentalStats where
  totalPerspectivesUsed : Nat
  maxRecursionDepth : Nat
  recursionEfficiency : Option ℚ
  timeCompleted : Nat

/-- The result record of `processProblem`. -/
structure KrangResult where
  problem : KrangProblem
  perspectives : List KrangPerspective
  synthesis : SynthesisResult
  confidence : Option ℚ
  mentalProcessStats : MentalStats

/-- The state in which the perspective loop starts: activation set cleared
and a root `("meta", 0)` context pushed onto whatever stack is present
(the source pushes without clearing). -/
def beginProcessing (st : EngineState) : EngineState :=
  pushMentalContext (resetPerspectives st) "meta" 0

/-- Everything `processProblem` does up to (and excluding) the final
`finally` reset of the mental context stack. -/
def processProblemCore (problem : KrangProblem) (g : Nat → ℚ) (cfg : EngineConfig)
    (st : EngineState) : KrangResult × EngineState :=
  let st := beginProcessing st
  let loopOut := perspectivesLoop problem g cfg cfg.primaryPerspectives ([], st)
  let synthOut := synthesizeResults loopOut.1 problem g loopOut.2
  let st := { synthOut.2 with performanceMetrics :=
      (updatePerformanceMetrics cfg synthOut.2.performanceMetrics
        synthOut.2.activePerspectives synthOut.1.confidence) }
  let t := clockNow st
  ({ problem := problem
     perspectives := loopOut.1
     synthesis := synthOut.1
     confidence := synthOut.1.confidence
     mentalProcessStats :=
       { totalPerspectivesUsed := t.2.activePerspectives.length
         maxRecursionDepth := cfg.beliefLevels
         recursionEfficiency := t.2.performanceMetrics.recursionEfficiency
         timeCompleted := t.1 } }, t.2)

/-- The Engine entry point.  The `finally` block resets the stack to the
single root context on every exit path; the model applies it to the final
state unconditionally. -/
def processProblem (problem : KrangProblem) (g : Nat → ℚ) (cfg : EngineConfig)
    (st : EngineState) : KrangResult × EngineState :=
  let out := processProblemCore problem g cfg st
  (out.1, resetMentalContext out.2)

/-- Sequential processing of a list of problems, accumulating the returned
results. -/
def runProblems (g : Nat → ℚ) (cfg : EngineConfig) :
    List KrangProblem → List KrangResult × EngineState →
    List KrangResult × EngineState
  | [], acc => acc
  | p :: ps, acc =>
    let out := processProblem p g cfg acc.2
    runProblems g cfg ps (acc.1 ++ [out.1], out.2)

end Krang

namespace Mirage

/-- Generic fold-as-sum lemma for the source's `reduce((s, x) => s + f(x), 0)`
accumulations. -/
theorem foldl_add_map {α : Type} (f : α → ℚ) :
    ∀ (l : List α) (a : ℚ), l.foldl (fun s x => s + f x) a = a + (l.map f).sum := by
  intro l
  induction l with
  | nil => intro a; simp
  | cons x xs ih =>
    intro a
    simp only [List.foldl, List.map, List.sum_cons]
    rw [ih]
    ring

/-- A list whose members all dominate `c` has sum at least `c` times its
length. -/
theorem sum_ge_card_mul (c : ℚ) :
    ∀ l : List ℚ, (∀ x ∈ l, c ≤ x) → c * l.length ≤ l.sum := by
  intro l
  induction l with
  | nil => intro _; simp
  | cons x xs ih =>
    intro h
    have hx := h x (by simp)
    have hxs := ih (fun y hy => h y (by simp [hy]))
    simp only [List.sum_cons, List.length_cons]
    push_cast
    nlinarith

theorem jsMax_le_left (a b : ℚ) : a ≤ jsMax a b := by
  rw [jsMax_eq]; exact le_max_left a b

theorem jsMax_le_right (a b : ℚ) : b ≤ jsMax a b := by
  rw [jsMax_eq]; exact le_max_right a b

end Mirage

namespace Krang

open Mirage

/-- Projection of a context entry onto its observable label. -/
def ctxLabel (c : MentalContext) : String × Nat := (c.perspective, c.level)

/-- A constant random stream: every `Math.random()` call returns `0.9`. -/
def g09 : Nat → ℚ := fun _ => 9/10

/-- A sample problem, as built by `processWithKrang` from a question. -/
def demoProblem : KrangProblem :=
  { title := "Explain fusion", description := "Explain fusion",
    domain := ["unrestricted"] }

theorem confidence_mk (i n s : String) (c : ℚ) (a b l : List String)
    (ch : List KrangPerspective) :
    (KrangPerspective.mk i n s c a b l ch).confidence = c := rfl

theorem touchCurrentContext_randIdx (st : EngineState) :
    (touchCurrentContext st).randIdx = st.randIdx := by
  unfold touchCurrentContext; split <;> rfl

theorem touchCurrentContext_metrics (st : EngineState) :
    (touchCurrentContext st).performanceMetrics = st.performanceMetrics := by
  unfold touchCurrentContext; split <;> rfl

theorem analyze_conf (problem : KrangProblem) (p : String) (g : Nat → ℚ)
    (st : EngineState) :
    (analyzeProblemFromPerspective problem p g st).1.confidence =
      0.85 + g ((touchCurrentContext st).randIdx + 1) * 0.15 := rfl

theorem analyze_metrics (problem : KrangProblem) (p : String) (g : Nat → ℚ)
    (st : EngineState) :
    (analyzeProblemFromPerspective problem p g st).2.performanceMetrics =
      st.performanceMetrics := by
  unfold analyzeProblemFromPerspective generateId rand
  simp [touchCurrentContext_metrics, touchCurrentContext]
  split <;> rfl

theorem refine_conf (problem : KrangProblem) (base : KrangPerspective)
    (rp : String) (g : Nat → ℚ) (st : EngineState) :
    (refineAnalysis problem base rp g st).1.confidence =
      base.confidence * (0.85 + g ((touchCurrentContext st).randIdx + 1) * 0.15) := rfl

theorem refine_metrics (problem : KrangProblem) (base : KrangPerspective)
    (rp : String) (g : Nat → ℚ) (st : EngineState) :
    (refineAnalysis problem base rp g st).2.performanceMetrics =
      st.performanceMetrics := by
  unfold refineAnalysis generateId rand
  simp [touchCurrentContext]
  split <;> rfl

theorem integrate_conf (b r : KrangPerspective) (net : InsightNetwork) :
    (integrateRefinedInsights b r net).1.confidence =
      jsMax b.confidence (r.confidence * 1.1) := rfl

theorem replaceLastChild_conf (p c : KrangPerspective) :
    (replaceLastChild p c).confidence = p.confidence := rfl

end Krang

namespace Krang

open Mirage

theorem tertiaryLoop_metrics (problem : KrangProblem) (g : Nat → ℚ) :
    ∀ (ts : List String) (acc : KrangPerspective × EngineState),
      (tertiaryLoop problem g ts acc).2.performanceMetrics =
        acc.2.performanceMetrics := by
  intro ts
  induction ts with
  | nil => intro acc; rfl
  | cons t ts ih =>
    intro acc
    rw [tertiaryLoop, ih]
    simp [popMentalContextState, refine_metrics, pushMentalContext, clockNow]

theorem secondaryLoop_metrics (problem : KrangProblem) (g : Nat → ℚ)
    (cfg : EngineConfig) :
    ∀ (ss : List String) (acc : KrangPerspective × EngineState),
      (secondaryLoop problem g cfg ss acc).2.performanceMetrics =
        acc.2.performanceMetrics := by
  intro ss
  induction ss with
  | nil => intro acc; rfl
  | cons s ss ih =>
    intro acc
    rw [secondaryLoop, ih]
    simp only [popMentalContextState]
    split
    · rw [tertiaryLoop_metrics]
      simp [refine_metrics, pushMentalContext, clockNow]
    · simp [refine_metrics, pushMentalContext, clockNow]

theorem processPerspective_metrics (problem : KrangProblem) (g : Nat → ℚ)
    (cfg : EngineConfig) (p : String) (st : EngineState) :
    (processPerspective problem g cfg p st).2.performanceMetrics =
      st.performanceMetrics := by
  rw [processPerspective]
  simp only [deactivatePerspective, popMentalContextState]
  split
  · rw [secondaryLoop_metrics]
    simp [analyze_metrics, pushMentalContext, clockNow, activatePerspective]
  · simp [analyze_metrics, pushMentalContext, clockNow, activatePerspective]

theorem perspectivesLoop_metrics (problem : KrangProblem) (g : Nat → ℚ)
    (cfg : EngineConfig) :
    ∀ (ps : List String) (acc : List KrangPerspective × EngineState),
      (perspectivesLoop problem g cfg ps acc).2.performanceMetrics =
        acc.2.performanceMetrics := by
  intro ps
  induction ps with
  | nil => intro acc; rfl
  | cons p ps ih =>
    intro acc
    rw [perspectivesLoop, ih]
    simp [processPerspective_metrics]

theorem perspectivesLoop_length (problem : KrangProblem) (g : Nat → ℚ)
    (cfg : EngineConfig) :
    ∀ (ps : List String) (acc : List KrangPerspective × EngineState),
      (perspectivesLoop problem g cfg ps acc).1.length =
        acc.1.length + ps.length := by
  intro ps
  induction ps with
  | nil => intro acc; simp [perspectivesLoop]
  | cons p ps ih =>
    intro acc
    rw [perspectivesLoop, ih]
    simp
    omega

theorem secondaryLoop_conf_mono (problem : KrangProblem) (g : Nat → ℚ)
    (cfg : EngineConfig) :
    ∀ (ss : List String) (acc : KrangPerspective × EngineState),
      acc.1.confidence ≤ (secondaryLoop problem g cfg ss acc).1.confidence := by
  intro ss
  induction ss with
  | nil => intro acc; exact le_refl _
  | cons s ss ih =>
    intro acc
    rw [secondaryLoop]
    refine le_trans ?_ (ih _)
    simp only [replaceLastChild_conf, integrate_conf]
    exact jsMax_le_left _ _

theorem secondaryLoop_conf_head (problem : KrangProblem) (g : Nat → ℚ)
    (cfg : EngineConfig) (s : String) (ss : List String)
    (acc : KrangPerspective × EngineState) :
    acc.1.confidence * (0.85 + g ((touchCurrentContext (pushMentalContext acc.2 s 2)).randIdx + 1) * 0.15) * 1.1 ≤
      (secondaryLoop problem g cfg (s :: ss) acc).1.confidence := by
  rw [secondaryLoop]
  refine le_trans ?_ (secondaryLoop_conf_mono problem g cfg ss _)
  simp only [replaceLastChild_conf, integrate_conf, refine_conf]
  exact jsMax_le_right _ _

end Krang

namespace Krang

open Mirage

theorem compat_ne_nil (p : String) :
    getCompatiblePerspectives defaultConfig p ≠ [] := by
  by_cases h : p = "empirical"
  · subst h; decide
  · intro hnil
    have hmem : "empirical" ∈ getCompatiblePerspectives defaultConfig p := by
      apply List.mem_filter.2
      constructor
      · decide
      · simp [bne_iff_ne]
        exact fun he => h he.symm
    rw [hnil] at hmem
    exact absurd hmem (List.not_mem_nil _)

theorem processPerspective_conf_ge (problem : KrangProblem) (g : Nat → ℚ)
    (hg : ∀ i, 0 ≤ g i) (cfg : EngineConfig) (p : String) (st : EngineState) :
    17/20 ≤ (processPerspective problem g cfg p st).1.confidence := by
  have hbase : ∀ st' : EngineState,
      (17:ℚ)/20 ≤ (analyzeProblemFromPerspective problem p g st').1.confidence := by
    intro st'
    rw [analyze_conf]
    have h0 := hg ((touchCurrentContext st').randIdx + 1)
    nlinarith
  rw [processPerspective]
  split
  · exact le_trans (hbase _) (secondaryLoop_conf_mono problem g cfg _ _)
  · exact hbase _

theorem processPerspective_conf_g09 (problem : KrangProblem) (p : String)
    (st : EngineState) :
    426899/400000 ≤ (processPerspective problem g09 defaultConfig p st).1.confidence := by
  obtain ⟨h, t, heq⟩ := List.exists_cons_of_ne_nil (compat_ne_nil p)
  rw [processPerspective]
  have hB : (1 : Nat) < defaultConfig.beliefLevels := by decide
  rw [if_pos hB, heq]
  refine le_trans ?_ (secondaryLoop_conf_head problem g09 defaultConfig h t _)
  rw [analyze_conf]
  show (426899:ℚ)/400000 ≤ (0.85 + 9/10 * 0.15) * (0.85 + 9/10 * 0.15) * 1.1
  norm_num

theorem perspectivesLoop_all_ge (B : ℚ) (problem : KrangProblem) (g : Nat → ℚ)
    (cfg : EngineConfig)
    (hstep : ∀ p st, B ≤ (processPerspective problem g cfg p st).1.confidence) :
    ∀ (ps : List String) (acc : List KrangPerspective × EngineState),
      (∀ r ∈ acc.1, B ≤ r.confidence) →
      ∀ r ∈ (perspectivesLoop problem g cfg ps acc).1, B ≤ r.confidence := by
  intro ps
  induction ps with
  | nil => intro acc hacc; exact hacc
  | cons p ps ih =>
    intro acc hacc
    rw [perspectivesLoop]
    apply ih
    intro r hr
    rcases List.mem_append.1 hr with hr | hr
    · exact hacc r hr
    · rw [List.mem_singleton.1 hr]
      exact hstep p acc.2

theorem processProblem_conf_eq (problem : KrangProblem) (g : Nat → ℚ)
    (cfg : EngineConfig) (st : EngineState) :
    (processProblem problem g cfg st).1.confidence =
      jsDiv
        ((perspectivesLoop problem g cfg cfg.primaryPerspectives
            ([], beginProcessing st)).1.foldl (fun sum r => sum + r.confidence) 0)
        (((perspectivesLoop problem g cfg cfg.primaryPerspectives
            ([], beginProcessing st)).1.length : ℚ)) := rfl

theorem processProblem_conf_ge (B : ℚ) (problem : KrangProblem) (g : Nat → ℚ)
    (cfg : EngineConfig) (st : EngineState)
    (hne : cfg.primaryPerspectives ≠ [])
    (hstep : ∀ p st', B ≤ (processPerspective problem g cfg p st').1.confidence) :
    ∃ c, (processProblem problem g cfg st).1.confidence = some c ∧ B ≤ c := by
  rw [processProblem_conf_eq]
  set results := (perspectivesLoop problem g cfg cfg.primaryPerspectives
    ([], beginProcessing st)).1 with hres
  have hlen : results.length = cfg.primaryPerspectives.length := by
    rw [hres, perspectivesLoop_length]
    simp
  have hlenpos : 0 < results.length := by
    rw [hlen]
    exact List.length_pos.2 hne
  have hall : ∀ r ∈ results, B ≤ r.confidence := by
    rw [hres]
    exact perspectivesLoop_all_ge B problem g cfg hstep _ _ (by intro r hr; cases hr)
  have hsum : B * results.length ≤ (results.map KrangPerspective.confidence).sum := by
    have := sum_ge_card_mul B (results.map KrangPerspective.confidence)
      (by intro x hx
          obtain ⟨r, hr, hrx⟩ := List.mem_map.1 hx
          rw [← hrx]
          exact hall r hr)
    simpa using this
  have hfold : results.foldl (fun sum r => sum + r.confidence) 0 =
      (results.map KrangPerspective.confidence).sum := by
    rw [foldl_add_map KrangPerspective.confidence results 0]
    ring
  have hLne : ((results.length : ℚ)) ≠ 0 := by
    positivity
  refine ⟨(results.map KrangPerspective.confidence).sum / results.length, ?_, ?_⟩
  · rw [jsDiv, if_neg hLne, hfold]
  · rw [le_div_iff₀ (by positivity)]
    linarith

end Krang

namespace Krang

open Mirage

theorem beginProcessing_stack (st : EngineState) :
    (beginProcessing st).mentalContextStack =
      st.mentalContextStack ++ [⟨"meta", 0, st.tick⟩] := rfl

theorem processProblem_stack (problem : KrangProblem) (g : Nat → ℚ)
    (cfg : EngineConfig) (st : EngineState) :
    (processProblem problem g cfg st).2.mentalContextStack.map ctxLabel =
      [("meta", 0)] := by
  show (resetMentalContext _).mentalContextStack.map ctxLabel = _
  rw [resetMentalContext, pushMentalContext]
  rfl

theorem synthesizeResults_metrics (results : List KrangPerspective)
    (problem : KrangProblem) (g : Nat → ℚ) (st : EngineState) :
    (synthesizeResults results problem g st).2.performanceMetrics =
      st.performanceMetrics := rfl

theorem processProblem_solved (problem : KrangProblem) (g : Nat → ℚ)
    (cfg : EngineConfig) (st : EngineState) :
    (processProblem problem g cfg st).2.performanceMetrics.problemsSolved =
      st.performanceMetrics.problemsSolved + 1 := by
  show (processProblemCore problem g cfg st).2.performanceMetrics.problemsSolved = _
  rw [processProblemCore]
  simp only [clockNow, updatePerformanceMetrics]
  rw [synthesizeResults_metrics, perspectivesLoop_metrics]
  rfl

theorem processProblem_avg (problem : KrangProblem) (g : Nat → ℚ)
    (cfg : EngineConfig) (st : EngineState) :
    (processProblem problem g cfg st).2.performanceMetrics.averageConfidence =
      jsDivO
        (jsAddO
          (jsMulO st.performanceMetrics.averageConfidence
            (((st.performanceMetrics.problemsSolved + 1 : Nat) : ℚ) - 1))
          ((processProblem problem g cfg st).1.confidence))
        (((st.performanceMetrics.problemsSolved + 1 : Nat) : ℚ)) := by
  show (processProblemCore problem g cfg st).2.performanceMetrics.averageConfidence =
    jsDivO (jsAddO _ ((processProblemCore problem g cfg st).1.confidence)) _
  rw [processProblemCore]
  simp only [clockNow, updatePerformanceMetrics]
  rw [synthesizeResults_metrics, perspectivesLoop_metrics]
  rfl

end Krang

namespace Krang

open Mirage

theorem processProblem_conf_some (problem : KrangProblem) (g : Nat → ℚ)
    (cfg : EngineConfig) (st : EngineState)
    (hne : cfg.primaryPerspectives ≠ []) :
    ∃ c, (processProblem problem g cfg st).1.confidence = some c := by
  rw [processProblem_conf_eq]
  have hlen : (perspectivesLoop problem g cfg cfg.primaryPerspectives
      ([], beginProcessing st)).1.length = cfg.primaryPerspectives.length := by
    rw [perspectivesLoop_length]; simp
  have hpos : 0 < (perspectivesLoop problem g cfg cfg.primaryPerspectives
      ([], beginProcessing st)).1.length := by
    rw [hlen]; exact List.length_pos.2 hne
  rw [jsDiv, if_neg (by positivity)]
  exact ⟨_, rfl⟩

theorem result_conf_synth (problem : KrangProblem) (g : Nat → ℚ)
    (cfg : EngineConfig) (st : EngineState) :
    (processProblem problem g cfg st).1.synthesis.confidence =
      (processProblem problem g cfg st).1.confidence := rfl

theorem runProblems_shift (g : Nat → ℚ) (cfg : EngineConfig) :
    ∀ (ps : List KrangProblem) (l : List KrangResult) (st : EngineState),
      (runProblems g cfg ps (l, st)).1 = l ++ (runProblems g cfg ps ([], st)).1 ∧
      (runProblems g cfg ps (l, st)).2 = (runProblems g cfg ps ([], st)).2 := by
  intro ps
  induction ps with
  | nil => intro l st; simp [runProblems]
  | cons p ps ih =>
    intro l st
    simp only [runProblems, List.nil_append]
    constructor
    · rw [(ih _ _).1]
      have h2 := (ih [(processProblem p g cfg st).1] (processProblem p g cfg st).2).1
      rw [h2]
      simp
    · rw [(ih _ _).2]
      have h2 := (ih [(processProblem p g cfg st).1] (processProblem p g cfg st).2).2
      rw [h2]

set_option maxRecDepth 4000 in
theorem runProblems_spec (g : Nat → ℚ) :
    ∀ (ps : List KrangProblem) (st : EngineState) (n : Nat) (a : ℚ),
      st.performanceMetrics.problemsSolved = n →
      st.performanceMetrics.averageConfidence = some a →
      (runProblems g defaultConfig ps ([], st)).2.performanceMetrics.problemsSolved =
          n + ps.length ∧
      ∃ cs : List ℚ,
        (runProblems g defaultConfig ps ([], st)).1.map
            (fun r => r.synthesis.confidence) = cs.map some ∧
        cs.length = ps.length ∧
        (runProblems g defaultConfig ps ([], st)).2.performanceMetrics.averageConfidence =
          some (if ps.length = 0 then a
                else (a * n + cs.sum) / ((n : ℚ) + ps.length)) := by
  intro ps
  induction ps with
  | nil =>
    intro st n a hn ha
    refine ⟨by simpa [runProblems] using hn, [], by simp [runProblems], by simp, ?_⟩
    simpa [runProblems] using ha
  | cons p ps ih =>
    intro st n a hn ha
    obtain ⟨c, hc⟩ := processProblem_conf_some p g defaultConfig st
      (by simp [defaultConfig, standardPerspectives])
    have hsolved := processProblem_solved p g defaultConfig st
    have havg := processProblem_avg p g defaultConfig st
    rw [hn] at hsolved havg
    rw [ha, hc] at havg
    have hnne : ((n : ℚ) + 1) ≠ 0 := by positivity
    have havg' : (processProblem p g defaultConfig st).2.performanceMetrics.averageConfidence =
        some ((a * n + c) / ((n : ℚ) + 1)) := by
      rw [havg]
      show jsDivO (some (a * (((n + 1 : Nat) : ℚ) - 1) + c)) (((n + 1 : Nat) : ℚ)) = _
      rw [jsDivO]
      rw [if_neg (by push_cast; exact hnne)]
      refine congrArg some ?_
      push_cast
      ring_nf
    obtain ⟨hsolved', cs', hmap', hlen', havg''⟩ :=
      ih (processProblem p g defaultConfig st).2 (n + 1) ((a * n + c) / ((n : ℚ) + 1))
        hsolved havg'
    have hshift := runProblems_shift g defaultConfig ps
      [(processProblem p g defaultConfig st).1] (processProblem p g defaultConfig st).2
    simp only [runProblems, List.nil_append]
    constructor
    · rw [hshift.2, hsolved']
      simp
      omega
    · refine ⟨c :: cs', ?_, ?_, ?_⟩
      · rw [hshift.1]
        simp only [List.map_append, List.map_cons, List.map_nil, hmap']
        rw [result_conf_synth, hc]
        rfl
      · simp [hlen']
      · rw [hshift.2, havg'']
        refine congrArg some ?_
        simp only [List.length_cons, List.sum_cons]
        rw [if_neg (show ¬(ps.length + 1 = 0) by omega)]
        rcases Nat.eq_zero_or_pos ps.length with hz | hpz
        · rw [if_pos hz]
          have hcs : cs' = [] := List.length_eq_zero.1 (by rw [hlen', hz])
          subst hcs
          rw [hz]
          simp only [List.sum_nil]
          push_cast
          ring
        · rw [if_neg (by omega)]
          have hmul : (a * n + c) / ((n : ℚ) + 1) * ((n : ℚ) + 1) = a * n + c :=
            div_mul_cancel₀ _ hnne
          push_cast
          rw [hmul]
          ring

end Krang

namespace Realtime

open Mirage

theorem quantum_ignores_seed (q s₁ s₂ : String) :
    generateQuantumPhysicsInsight q s₁ = generateQuantumPhysicsInsight q s₂ := rfl

theorem compMath_ignores_seed (q s₁ s₂ : String) :
    generateComputationalMathInsight q s₁ = generateComputationalMathInsight q s₂ := rfl

theorem materials_ignores_seed (q s₁ s₂ : String) :
    generateMaterialsScienceInsight q s₁ = generateMaterialsScienceInsight q s₂ := rfl

theorem sysEng_ignores_seed (q s₁ s₂ : String) :
    generateSystemsEngineeringInsight q s₁ = generateSystemsEngineeringInsight q s₂ := rfl

theorem evoBio_ignores_seed (q s₁ s₂ : String) :
    generateEvolutionaryBiologyInsight q s₁ = generateEvolutionaryBiologyInsight q s₂ := rfl

theorem cogNeuro_ignores_seed (q s₁ s₂ : String) :
    generateCognitiveNeuroscienceInsight q s₁ = generateCognitiveNeuroscienceInsight q s₂ := rfl

theorem netTheory_ignores_seed (q s₁ s₂ : String) :
    generateNetworkTheoryInsight q s₁ = generateNetworkTheoryInsight q s₂ := rfl

theorem infoTheory_ignores_seed (q s₁ s₂ : String) :
    generateInformationTheoryInsight q s₁ = generateInformationTheoryInsight q s₂ := rfl

/-- The insight produced for an expert does not depend on the hash function
or on the seed argument: every generator ignores its seed. -/
theorem gpi_ignores_seed (h₁ h₂ : String → String) (q p s₁ s₂ : String) :
    generatePerspectiveInsight h₁ q p s₁ = generatePerspectiveInsight h₂ q p s₂ := by
  unfold generatePerspectiveInsight
  split_ifs <;> rfl

/-- Intent categories of the spec's synthesis routing. -/
inductive Intent : Type where
  | method
  | explanation
  | definition
  | general
deriving Repr, DecidableEq

/-- Modelled from the spec (§4.2 step 7): intent classification of the
question by case-insensitive substring tests in fixed order —
"how"/"method"/"way", else "why"/"reason", else "what"/"define", else
general. -/
def specIntent (question : String) : Intent :=
  let lowerQuestion := lowerStr question
  if strIncludes lowerQuestion "how" || strIncludes lowerQuestion "method" ||
      strIncludes lowerQuestion "way" then
    Intent.method
  else if strIncludes lowerQuestion "why" || strIncludes lowerQuestion "reason" then
    Intent.explanation
  else if strIncludes lowerQuestion "what" || strIncludes lowerQuestion "define" then
    Intent.definition
  else
    Intent.general

/-- The synthesis dispatches exactly along the spec's intent order, on the
confidence-sorted top three insights. -/
theorem synthesizeInsights_routes (perspectiveInsights : List PerspectiveInsight)
    (question : String) :
    synthesizeInsights perspectiveInsights question =
      (match specIntent question with
        | Intent.method =>
            synthesizeMethodSolution
              ((sortByConfDesc perspectiveInsights).take
                (Nat.min 3 (sortByConfDesc perspectiveInsights).length)) question
        | Intent.explanation =>
            synthesizeExplanationSolution
              ((sortByConfDesc perspectiveInsights).take
                (Nat.min 3 (sortByConfDesc perspectiveInsights).length)) question
        | Intent.definition =>
            synthesizeDefinitionSolution
              ((sortByConfDesc perspectiveInsights).take
                (Nat.min 3 (sortByConfDesc perspectiveInsights).length)) question
        | Intent.general =>
            synthesizeGeneralSolution
              ((sortByConfDesc perspectiveInsights).take
                (Nat.min 3 (sortByConfDesc perspectiveInsights).length)) question) := by
  unfold synthesizeInsights specIntent
  dsimp only
  split_ifs <;> rfl

/-- Modelled from the spec (§4.2 step 8): overall-confidence mean with the
`0` default on the empty list. -/
def specMean (cs : List ℚ) : ℚ :=
  if cs.length = 0 then 0 else cs.sum / (cs.length : ℚ)

/-- Modelled from the spec (§4.2 step 8): population variance, `0` on the
empty list. -/
def specPopulationVariance (cs : List ℚ) : ℚ :=
  if cs.length = 0 then 0
  else ((cs.map (fun x => (x - specMean cs) ^ 2)).sum) / (cs.length : ℚ)

/-- Modelled from the spec (§4.2 step 8): the overall-confidence formula
`mean×0.6 + agreementFactor×0.3 − complexity×0.1` with
`agreementFactor = max(0, 1 − 10×populationVariance)`, clamped to
`[0.5, 0.99]`. -/
def specOverallConfidence (cs : List ℚ) (complexity : ℚ) : ℚ :=
  min 0.99 (max 0.5
    (specMean cs * 0.6 + (max 0 (1 - 10 * specPopulationVariance cs)) * 0.3 -
      complexity * 0.1))

theorem variance_eq_spec (values : List ℚ) :
    calculateVariance values = specPopulationVariance values := by
  unfold calculateVariance specPopulationVariance specMean
  rcases Nat.eq_zero_or_pos values.length with h0 | hpos
  · rw [if_pos h0, if_pos h0]
  · rw [if_neg (by omega), if_neg (by omega), if_neg (by omega)]
    dsimp only
    have h1 : values.foldl (fun sum value => sum + value) 0 = values.sum := by
      simpa using foldl_add_map (id : ℚ → ℚ) values 0
    rw [h1]
    have h2 : ∀ m : ℚ, (values.map (fun value => (value - m) ^ 2)).foldl
        (fun sum value => sum + value) 0 =
        (values.map (fun value => (value - m) ^ 2)).sum := by
      intro m
      simpa using foldl_add_map (id : ℚ → ℚ) (values.map (fun value => (value - m) ^ 2)) 0
    rw [h2]

end Realtime

namespace Realtime

open Mirage

theorem overall_eq_spec (perspectiveInsights : List PerspectiveInsight)
    (complexity : ℚ) :
    calculateOverallConfidence perspectiveInsights complexity =
      specOverallConfidence (perspectiveInsights.map (fun i => i.confidence))
        complexity := by
  unfold calculateOverallConfidence specOverallConfidence
  dsimp only
  simp only [jsMin_eq, jsMax_eq]
  rw [variance_eq_spec]
  have hsum : perspectiveInsights.foldl (fun sum insight => sum + insight.confidence) 0 =
      (perspectiveInsights.map (fun i => i.confidence)).sum := by
    simpa using foldl_add_map (fun i : PerspectiveInsight => i.confidence)
      perspectiveInsights 0
  have hmean : (if 0 < perspectiveInsights.length then
        (perspectiveInsights.foldl (fun sum insight => sum + insight.confidence) 0) /
          (perspectiveInsights.length : ℚ)
      else 0) = specMean (perspectiveInsights.map (fun i => i.confidence)) := by
    unfold specMean
    rcases Nat.eq_zero_or_pos perspectiveInsights.length with h0 | hpos
    · rw [if_neg (by omega), if_pos (by simpa using h0)]
    · rw [if_pos hpos, if_neg (by simpa using Nat.pos_iff_ne_zero.1 hpos), hsum,
        List.length_map]
  rw [hmean, mul_comm (specPopulationVariance _) 10]

theorem overall_bounds (perspectiveInsights : List PerspectiveInsight)
    (complexity : ℚ) :
    0.5 ≤ calculateOverallConfidence perspectiveInsights complexity ∧
      calculateOverallConfidence perspectiveInsights complexity ≤ 0.99 := by
  unfold calculateOverallConfidence
  dsimp only
  rw [jsMin_eq, jsMax_eq, jsMax_eq]
  constructor
  · exact le_min (by norm_num) (le_max_left _ _)
  · exact min_le_left _ _

theorem insight_conf_bounds (insight question : String) :
    0 ≤ calculateInsightConfidence insight question ∧
      calculateInsightConfidence insight question ≤ 3/4 := by
  unfold calculateInsightConfidence
  dsimp only
  simp only [jsMin_eq]
  set a := min (0.7 : ℚ) ((insight.length : ℚ) / 500) with ha
  set b := min (0.8 : ℚ) (((splitWs (lowerStr question)).foldl
    (fun n term => if 4 < term.length && strIncludes (lowerStr insight) term
      then n + 1 else n) 0 : ℕ) / (5:ℚ)) with hb
  have ha0 : 0 ≤ a := le_min (by norm_num) (by positivity)
  have ha1 : a ≤ 0.7 := min_le_left _ _
  have hb0 : 0 ≤ b := le_min (by norm_num) (by positivity)
  have hb1 : b ≤ 0.8 := min_le_left _ _
  have hp : (0:ℚ) ≤ (if hasPreciseTok insight.data then (0.15:ℚ) else 0) ∧
      (if hasPreciseTok insight.data then (0.15:ℚ) else 0) ≤ 0.15 := by
    split <;> norm_num
  constructor
  · rw [min_eq_right (by nlinarith [hp.1, hp.2])]
    nlinarith [hp.1]
  · rw [min_eq_right (by nlinarith [hp.1, hp.2])]
    nlinarith [hp.2]

end Realtime

namespace Realtime

open Mirage

/-- The seed arguments and the hash function have no influence on the
Selector's output at all. -/
theorem processInRealTime_hash_irrelevant (h₁ h₂ : String → String) (q : String) :
    processInRealTime h₁ q = processInRealTime h₂ q := by
  have hf : (fun perspective =>
        PerspectiveInsight.mk perspective
          (generatePerspectiveInsight h₁ q perspective (h₁ q))
          (calculateInsightConfidence
            (generatePerspectiveInsight h₁ q perspective (h₁ q)) q)) =
      (fun perspective =>
        PerspectiveInsight.mk perspective
          (generatePerspectiveInsight h₂ q perspective (h₂ q))
          (calculateInsightConfidence
            (generatePerspectiveInsight h₂ q perspective (h₂ q)) q)) := by
    funext p
    rw [gpi_ignores_seed h₁ h₂ q p (h₁ q) (h₂ q)]
  unfold processInRealTime
  dsimp only
  rw [hf]

/-- Every explanation synthesis starts with the fixed frame. -/
theorem explanation_solution_head (insights : List PerspectiveInsight)
    (question : String) :
    ∃ rest, synthesizeExplanationSolution insights question =
      "The explanation involves" ++ rest := by
  refine ⟨" multiple interconnected factors: " ++
    (String.intercalate ". " (insights.foldl
      (fun acc ins =>
        acc ++ ((splitDotWs ins.insight).filter
          (matchesVocab explanationVocab)).map String.trim) [])) ++ ".", ?_⟩
  unfold synthesizeExplanationSolution
  dsimp only
  rw [show ("The explanation involves multiple interconnected factors: " : String) =
    "The explanation involves" ++ " multiple interconnected factors: " from by decide]
  rw [String.append_assoc, String.append_assoc, String.append_assoc]

end Realtime

namespace Realtime

open Mirage

/-- The sample question of the expert-selection test. -/
def questionC5 : String := "Explain quantum field energy interactions"

theorem calcComplexity_questionC5 : calculateComplexity questionC5 = 91/1000 := by
  unfold calculateComplexity
  dsimp only
  have hfold : complexTerms.foldl
      (fun acc term =>
        if strIncludes (lowerStr questionC5) term then acc + 0.05 else acc) 0 =
      (0.05 : ℚ) := by
    simp only [complexTerms, List.foldl,
      show strIncludes (lowerStr questionC5) "quantum" = true from by decide,
      show strIncludes (lowerStr questionC5) "fusion" = false from by decide,
      show strIncludes (lowerStr questionC5) "consciousness" = false from by decide,
      show strIncludes (lowerStr questionC5) "relativity" = false from by decide,
      show strIncludes (lowerStr questionC5) "origin" = false from by decide,
      show strIncludes (lowerStr questionC5) "universe" = false from by decide,
      show strIncludes (lowerStr questionC5) "evolution" = false from by decide,
      show strIncludes (lowerStr questionC5) "intelligence" = false from by decide,
      show strIncludes (lowerStr questionC5) "gravity" = false from by decide,
      show strIncludes (lowerStr questionC5) "dimension" = false from by decide,
      show strIncludes (lowerStr questionC5) "multiverse" = false from by decide,
      show strIncludes (lowerStr questionC5) "theorem" = false from by decide,
      show strIncludes (lowerStr questionC5) "paradox" = false from by decide,
      show strIncludes (lowerStr questionC5) "infinity" = false from by decide,
      show strIncludes (lowerStr questionC5) "cognition" = false from by decide,
      if_true, if_false]
    norm_num
  rw [hfold, show (questionC5.length : ℚ) = 41 from by norm_num [show questionC5.length = 41 from by decide]]
  rw [show jsMin 0.5 ((41:ℚ)/1000) = 41/1000 from by rw [jsMin_eq]; norm_num [min_def]]
  rw [jsMin_eq]
  norm_num [min_def]

theorem perspectiveCount_questionC5 :
    determineOptimalPerspectiveCount (calculateComplexity questionC5) = 2 := by
  rw [calcComplexity_questionC5]
  unfold determineOptimalPerspectiveCount
  norm_num

end Realtime

namespace Krang

open Mirage

/-- A hand-built perspective result used as the base argument of the
failing `integrateRefinedInsights` input. -/
def samplePerspectiveA : KrangPerspective :=
  .mk "a" "empirical" "empirical" (9/10) ["iA"] ["rA"] ["lA"] []

/-- A hand-built refinement used as the refined argument of the failing
`integrateRefinedInsights` input. -/
def samplePerspectiveB : KrangPerspective :=
  .mk "b" "theoretical" "theoretical" (9/10) ["iB"] ["rB"] ["lB"] []

/-- The insight network after recording one edge into an empty network:
exactly one source node with exactly one edge. -/
def oneNodeNetwork : InsightNetwork :=
  (integrateRefinedInsights samplePerspectiveA samplePerspectiveB []).2

theorem oneNodeNetwork_eq :
    oneNodeNetwork = [("empirical", [("theoretical", ⟨9/10, ["iB"]⟩)])] := rfl

end Krang

section Claims

open Mirage Realtime Krang

/-- C1 (amended).  The Selector confidence returned by `processInRealTime`
always lies in `[0.5, 0.99]`, and the Engine confidence returned by
`processProblem` — the mean of the 15 post-merge perspective confidences —
is always at least `0.85` (in particular never negative) for any random
stream with non-negative draws.  The original claim's upper bound `1.0` for
the Engine is false: see the counterexample, where the `×1.1` integration
boost drives the mean above `1`. -/
theorem claim_C1_amended (g : Nat → ℚ) (hg : ∀ i, 0 ≤ g i)
    (problem : KrangProblem) (st : EngineState) (hash : String → String)
    (question : String) :
    (∃ c, (processProblem problem g defaultConfig st).1.confidence = some c ∧
       17/20 ≤ c) ∧
    0.5 ≤ (processInRealTime hash question).confidence ∧
    (processInRealTime hash question).confidence ≤ 0.99 := by
  refine ⟨?_, ?_, ?_⟩
  · exact processProblem_conf_ge (17/20) problem g defaultConfig st
      (by simp [defaultConfig, standardPerspectives])
      (fun p st' => processPerspective_conf_ge problem g hg defaultConfig p st')
  · exact (overall_bounds _ _).1
  · exact (overall_bounds _ _).2

/-- C1 witness: the amended claim instantiated at the all-zero random
stream, a concrete problem and a concrete question. -/
theorem claim_C1_amended_witness :
    (∀ i : Nat, 0 ≤ (fun _ : Nat => (0:ℚ)) i) ∧
    ((∃ c, (processProblem demoProblem (fun _ : Nat => (0:ℚ)) defaultConfig
        freshEngineState).1.confidence = some c ∧ 17/20 ≤ c) ∧
      0.5 ≤ (processInRealTime (fun _ : String => "") "What is fusion?").confidence ∧
      (processInRealTime (fun _ : String => "") "What is fusion?").confidence ≤ 0.99) :=
  ⟨fun _ => le_refl 0,
   claim_C1_amended (fun _ => 0) (fun _ => le_refl 0) demoProblem freshEngineState
     (fun _ => "") "What is fusion?"⟩

/-- C1 (counterexample).  On a fresh Engine with every `Math.random()` draw
equal to `0.9`, the confidence `processProblem` returns exceeds `1`, so the
claimed bound `[0, 1]` is false on the code. -/
theorem claim_C1_counterexample :
    1 < ((processProblem demoProblem g09 defaultConfig
      freshEngineState).1.confidence).getD 0 := by
  obtain ⟨c, hc, hge⟩ := processProblem_conf_ge (426899/400000) demoProblem g09
    defaultConfig freshEngineState
    (by simp [defaultConfig, standardPerspectives])
    (fun p st' => processPerspective_conf_g09 demoProblem p st')
  rw [hc, Option.getD_some]
  have h1 : (1:ℚ) < 426899/400000 := by norm_num
  linarith

/-- C2 (amended).  After every `processProblem` call, from any starting
state, the stack is exactly `[("meta", 0)]` (the `finally` reset).  At the
start of processing, `processProblem` pushes a `("meta", 0)` context
without clearing: on a fresh instance the stack at the start of processing
is exactly `[("meta", 0)]`, and on any state the top of the stack at the
start of processing is `("meta", 0)`.  The original claim that the stack
consists of exactly the root entry at the start of every call is false from
the second call on: see the counterexample. -/
theorem claim_C2_amended (problem : KrangProblem) (g : Nat → ℚ)
    (cfg : EngineConfig) (st st' : EngineState) :
    (processProblem problem g cfg st).2.mentalContextStack.map ctxLabel =
      [("meta", 0)] ∧
    (beginProcessing freshEngineState).mentalContextStack.map ctxLabel =
      [("meta", 0)] ∧
    ((beginProcessing st').mentalContextStack.map ctxLabel).getLast? =
      some ("meta", 0) := by
  refine ⟨processProblem_stack problem g cfg st, rfl, ?_⟩
  rw [beginProcessing_stack, List.map_append]
  simp [ctxLabel]

/-- C2 (counterexample).  On the second `processProblem` call of a fresh
Engine, the stack at the start of processing holds two `("meta", 0)`
entries, not one: the source pushes the root context without resetting. -/
theorem claim_C2_counterexample :
    (beginProcessing (processProblem demoProblem g09 defaultConfig
        freshEngineState).2).mentalContextStack.map ctxLabel =
      [("meta", 0), ("meta", 0)] ∧
    (beginProcessing (processProblem demoProblem g09 defaultConfig
        freshEngineState).2).mentalContextStack.length ≠ 1 := by
  have h1 : (beginProcessing (processProblem demoProblem g09 defaultConfig
      freshEngineState).2).mentalContextStack.map ctxLabel =
      [("meta", 0), ("meta", 0)] := by
    rw [beginProcessing_stack, List.map_append, processProblem_stack]
    simp [ctxLabel]
  refine ⟨h1, ?_⟩
  have h2 := congrArg List.length h1
  rw [List.length_map] at h2
  simp at h2
  omega

/-- C3 (evidence of the code bug).  On the empty network the density is the
guarded `0`, but on a network with exactly one source node (here: the state
right after recording a single `empirical → theoretical` edge into an empty
network) the source divides by `1 × (1 − 1) = 0`: in JS the density is
`Infinity`, not the `0` the claim and the spec require. -/
theorem claim_C3_evidence :
    (calculateInsightNetworkComplexity ([] : InsightNetwork)).density = some 0 ∧
    (calculateInsightNetworkComplexity oneNodeNetwork).nodes = 1 ∧
    (calculateInsightNetworkComplexity oneNodeNetwork).edges = 1 ∧
    (calculateInsightNetworkComplexity oneNodeNetwork).density = none := by
  refine ⟨rfl, rfl, rfl, ?_⟩
  rw [oneNodeNetwork_eq]
  norm_num [calculateInsightNetworkComplexity, jsDiv]

/-- C4 (evidence of the code bug).  The Selector's
`calculateOverallConfidence` handles the empty insight list safely (the
average contributes `0`, the variance guard makes the agreement factor `1`,
and the result is clamped), but the Engine's `synthesizeResults` divides by
`results.length` without a guard: on the empty list it computes `0/0`, the
JS `NaN`, not `0` or a safe default. -/
theorem claim_C4_evidence :
    (∀ (problem : KrangProblem) (g : Nat → ℚ) (st : EngineState),
      (synthesizeResults [] problem g st).1.confidence = none) ∧
    (∀ complexity : ℚ, calculateOverallConfidence [] complexity =
      jsMin 0.99 (jsMax 0.5 (0.3 - complexity * 0.1))) := by
  constructor
  · intro problem g st
    unfold synthesizeResults
    dsimp only
    norm_num [jsDiv]
  · intro complexity
    unfold calculateOverallConfidence calculateVariance
    dsimp only
    norm_num [jsMax]

/-- C5 (counterexample).  For the question
`"Explain quantum field energy interactions"` the quantum-physics expert
scores three keyword hits (quantum, field, energy), not the four hits the
claim states. -/
theorem claim_C5_counterexample :
    perspectiveScore questionC5 "quantum_physicist" = 3 ∧
    perspectiveScore questionC5 "quantum_physicist" ≠ 4 := by decide

/-- C5 (amended).  Expert selection scores the eight fixed experts by
case-insensitive keyword hits, stable-sorts descending (ties keep the fixed
order) and takes the first `perspectiveCount`.  For the sample question the
scores are `[3, 0, 0, 0, 0, 0, 0, 0]` — `quantum_physicist` first with
three hits (quantum, field, energy) — the count for this question is `2`,
and the selection is `quantum_physicist` followed by the first zero-scored
expert in fixed order. -/
theorem claim_C5_amended :
    domainExperts.map (perspectiveScore questionC5) = [3, 0, 0, 0, 0, 0, 0, 0] ∧
    determineOptimalPerspectiveCount (calculateComplexity questionC5) = 2 ∧
    selectRelevantPerspectives questionC5
        (determineOptimalPerspectiveCount (calculateComplexity questionC5)) =
      ["quantum_physicist", "computational_mathematician"] := by
  refine ⟨by decide, perspectiveCount_questionC5, ?_⟩
  rw [perspectiveCount_questionC5]
  decide

/-- C6 (confirmed).  For every list of insights and every complexity value,
the Selector's overall confidence equals the spec formula
`mean×0.6 + agreementFactor×0.3 − complexity×0.1` with
`agreementFactor = max(0, 1 − 10×populationVariance)`, clamped to
`[0.5, 0.99]`. -/
theorem claim_C6_overall_confidence (perspectiveInsights : List PerspectiveInsight)
    (complexity : ℚ) :
    calculateOverallConfidence perspectiveInsights complexity =
      specOverallConfidence (perspectiveInsights.map (fun i => i.confidence))
        complexity :=
  overall_eq_spec perspectiveInsights complexity

/-- C7 (confirmed).  After the Engine processes `N` problems sequentially
from a fresh instance, `problemsSolved = N` and `averageConfidence` is
exactly the arithmetic mean of the `N` returned `synthesis.confidence`
values (all of which are finite). -/
theorem claim_C7_running_mean (ps : List KrangProblem) (g : Nat → ℚ) :
    (runProblems g defaultConfig ps ([], freshEngineState)).2.performanceMetrics.problemsSolved =
      ps.length ∧
    ∃ cs : List ℚ,
      (runProblems g defaultConfig ps ([], freshEngineState)).1.map
        (fun r => r.synthesis.confidence) = cs.map some ∧
      cs.length = ps.length ∧
      (runProblems g defaultConfig ps
          ([], freshEngineState)).2.performanceMetrics.averageConfidence =
        some (cs.sum / (ps.length : ℚ)) := by
  obtain ⟨hsolved, cs, hmap, hlen, havg⟩ :=
    runProblems_spec g ps freshEngineState 0 0 rfl rfl
  refine ⟨by simpa using hsolved, cs, hmap, hlen, ?_⟩
  rw [havg]
  refine congrArg some ?_
  rcases Nat.eq_zero_or_pos ps.length with hz | hpz
  · rw [if_pos hz, hz]
    have hcs : cs = [] := List.length_eq_zero.1 (by rw [hlen, hz])
    subst hcs
    simp
  · rw [if_neg (by omega)]
    push_cast
    ring_nf

/-- C8 (confirmed).  Intent classification routes in the fixed order of the
spec (how/method/way, then why/reason, then what/define, then general), and
the literal question `"Why does fusion occur?"` produces a solution string
starting with `"The explanation involves"`. -/
theorem claim_C8_intent_routing :
    (∀ (perspectiveInsights : List PerspectiveInsight) (question : String),
      synthesizeInsights perspectiveInsights question =
        (match specIntent question with
          | Intent.method =>
              synthesizeMethodSolution
                ((sortByConfDesc perspectiveInsights).take
                  (Nat.min 3 (sortByConfDesc perspectiveInsights).length)) question
          | Intent.explanation =>
              synthesizeExplanationSolution
                ((sortByConfDesc perspectiveInsights).take
                  (Nat.min 3 (sortByConfDesc perspectiveInsights).length)) question
          | Intent.definition =>
              synthesizeDefinitionSolution
                ((sortByConfDesc perspectiveInsights).take
                  (Nat.min 3 (sortByConfDesc perspectiveInsights).length)) question
          | Intent.general =>
              synthesizeGeneralSolution
                ((sortByConfDesc perspectiveInsights).take
                  (Nat.min 3 (sortByConfDesc perspectiveInsights).length)) question)) ∧
    ∃ rest, (processInRealTime (fun _ => "") "Why does fusion occur?").solution =
      "The explanation involves" ++ rest := by
  refine ⟨synthesizeInsights_routes, ?_⟩
  have hgen : ∀ tops : List PerspectiveInsight,
      ∃ rest, synthesizeInsights tops "Why does fusion occur?" =
        "The explanation involves" ++ rest := by
    intro tops
    rw [synthesizeInsights_routes]
    rw [show specIntent "Why does fusion occur?" = Intent.explanation from by decide]
    exact explanation_solution_head _ _
  exact hgen _

/-- C9 (confirmed).  `processInRealTime` consumes no randomness and never
branches on the per-question or per-expert hash seeds: its entire output is
the same for every hash function, hence identical across invocations with
the same question. -/
theorem claim_C9_determinism (h₁ h₂ : String → String) (question : String) :
    processInRealTime h₁ question = processInRealTime h₂ question :=
  processInRealTime_hash_irrelevant h₁ h₂ question

/-- C10 (confirmed).  For every insight and question,
`calculateInsightConfidence` returns a value in `[0, 0.75]`; in particular
it stays strictly below the outer `min(0.99, ...)` cap, which is therefore
never the binding constraint. -/
theorem claim_C10_insight_confidence (insight question : String) :
    0 ≤ calculateInsightConfidence insight question ∧
    calculateInsightConfidence insight question ≤ 3/4 ∧
    calculateInsightConfidence insight question < 0.99 := by
  obtain ⟨h0, h1⟩ := insight_conf_bounds insight question
  refine ⟨h0, h1, ?_⟩
  have : (3:ℚ)/4 < 0.99 := by norm_num
  linarith

end Claims
